import Mathlib

/-!
Verification of the canteen ordering application (`canteen-project/app.py`).

The Flask routes are shallowly embedded as pure Lean functions over an
explicit database state `DB` (lists of menu items, orders and feedback rows,
mirroring the SQLAlchemy tables) and an optional `Session` (the Flask session
cookie: username and role).  Wall-clock times of day are represented as
seconds since midnight (`Nat`); SQL `Float` money/price columns are modelled
as rationals; nullable string columns as `Option String`.  Each route returns
a result tag (redirect / flash outcome) together with the post-commit state.
-/

namespace Canteen

/-- A row of the `menu_item` table: nullable `available_from` / `available_to`
are "HH:MM" strings (or NULL), exactly as stored by the code. -/
structure MenuItem where
  id : Nat
  name : String
  price : ℚ
  available : Bool
  available_from : Option String
  available_to : Option String
deriving Repr, DecidableEq

/-- A row of the `order` table (creation timestamp omitted: no claim
mentions it). -/
structure Order where
  id : Nat
  username : String
  item_name : String
  total_price : ℚ
  pickup_time : String
  status : String
  payment_status : String
  token : String
deriving Repr, DecidableEq

/-- A row of the `feedback` table. -/
structure Feedback where
  id : Nat
  item_id : Nat
  username : String
  rating : Int
  comment : String
deriving Repr, DecidableEq

/-- The Flask session cookie contents set at login. -/
structure Session where
  username : String
  role : String
deriving Repr, DecidableEq

/-- The persistent store, plus autoincrement counters for primary keys. -/
structure DB where
  items : List MenuItem
  orders : List Order
  feedbacks : List Feedback
  next_item_id : Nat
  next_order_id : Nat
  next_feedback_id : Nat
deriving Repr, DecidableEq

/-- `is_logged_in()`: `'username' in session`. -/
def is_logged_in (sess : Option Session) : Bool :=
  sess.isSome

/-- `is_admin()`: `session.get('role') == 'admin'`. -/
def is_admin (sess : Option Session) : Bool :=
  match sess with
  | some s => s.role = "admin"
  | none => false

/-- Python truthiness of a nullable string column: `None` and `""` are falsy. -/
def truthy (o : Option String) : Bool :=
  match o with
  | none => false
  | some s => !(s = "")

/-- Python `str.strip()`: remove leading and trailing whitespace. -/
def strip (s : String) : String :=
  String.mk
    (((s.data.dropWhile Char.isWhitespace).reverse.dropWhile Char.isWhitespace).reverse)

/-- Value of a decimal digit string. -/
def digitsVal (cs : List Char) : Nat :=
  cs.foldl (fun a c => a * 10 + (c.toNat - 48)) 0

/-- `datetime.strptime(s, "%H:%M").time()`: one or two digit hour `0..23`,
a colon, one or two digit minute `0..59`; the result is the time of day in
seconds since midnight.  `none` models the `ValueError` raised otherwise. -/
def parseHHMM (s : String) : Option Nat :=
  let cs := s.data
  let h := cs.takeWhile (· ≠ ':')
  match cs.dropWhile (· ≠ ':') with
  | ':' :: m =>
    if 1 ≤ h.length ∧ h.length ≤ 2 ∧ 1 ≤ m.length ∧ m.length ≤ 2
        ∧ h.all Char.isDigit ∧ m.all Char.isDigit then
      if digitsVal h ≤ 23 ∧ digitsVal m ≤ 59 then
        some (digitsVal h * 3600 + digitsVal m * 60)
      else none
    else none
  | _ => none

/-- `in_availability(item)` of app.py, with the current time of day passed
explicitly (seconds since midnight).  `.error ()` models the uncaught
`ValueError` when a set bound fails to parse as "%H:%M". -/
def in_availability (item : MenuItem) (now : Nat) : Except Unit Bool :=
  if !item.available then .ok false
  else if truthy item.available_from && truthy item.available_to then
    match parseHHMM (item.available_from.getD "") with
    | none => .error ()
    | some fr =>
      match parseHHMM (item.available_to.getD "") with
      | none => .error ()
      | some to_ =>
        if fr ≤ now ∧ now ≤ to_ then .ok true else .ok false
  else .ok true

/-- `string.ascii_uppercase + string.digits`, the token alphabet. -/
def alphabet : List Char :=
  ['A', 'B', 'C', 'D', 'E', 'F', 'G', 'H', 'I', 'J', 'K', 'L', 'M',
   'N', 'O', 'P', 'Q', 'R', 'S', 'T', 'U', 'V', 'W', 'X', 'Y', 'Z',
   '0', '1', '2', '3', '4', '5', '6', '7', '8', '9']

/-- `gen_token(n)`: `n` draws with replacement from the 36-character
alphabet; `pick` is the stream of indices chosen by `random.choices`. -/
def gen_token (pick : Nat → Fin 36) (n : Nat) : String :=
  String.mk ((List.range n).map fun i => alphabet.get (Fin.cast (by decide) (pick i)))

/-- `MenuItem.query.get(item_id)`: primary-key lookup. -/
def get_item (db : DB) (item_id : Nat) : Option MenuItem :=
  db.items.find? (fun it => it.id = item_id)

/-- `Order.query.get(oid)`: primary-key lookup. -/
def get_order (db : DB) (oid : Nat) : Option Order :=
  db.orders.find? (fun o => o.id = oid)

/-- Attribute assignment on the ORM row with primary key `oid`, followed by
`db.session.commit()`: rewrites the row with that key. -/
def update_order (orders : List Order) (oid : Nat) (g : Order → Order) : List Order :=
  orders.map (fun o => if o.id = oid then g o else o)

inductive PlaceResult where
  | redirectLogin
  | notFound
  | itemUnavailable
  | invalidInput
  | serverError
  | success (orderId : Nat)
deriving Repr, DecidableEq

/-- POST `/order/<item_id>` (`order_form`): place an order.  `now` is the
current time of day, `order_time` / `order_ampm` the form fields, `pick`
the randomness consumed by `gen_token(6)`. -/
def order_form (sess : Option Session) (db : DB) (item_id : Nat) (now : Nat)
    (order_time order_ampm : String) (pick : Nat → Fin 36) : PlaceResult × DB :=
  if !is_logged_in sess || is_admin sess then (.redirectLogin, db)
  else match sess with
  | none => (.redirectLogin, db)
  | some s =>
    match get_item db item_id with
    | none => (.notFound, db)
    | some item =>
      match in_availability item now with
      | .error _ => (.serverError, db)
      | .ok avail =>
        if !avail then (.itemUnavailable, db)
        else
          let time_val := strip order_time
          let ampm := strip order_ampm
          if time_val = "" ∨ (ampm ≠ "AM" ∧ ampm ≠ "PM") then (.invalidInput, db)
          else
            let new_order : Order :=
              { id := db.next_order_id, username := s.username,
                item_name := item.name, total_price := item.price,
                pickup_time := time_val ++ " " ++ ampm, status := "Pending",
                payment_status := "Unpaid", token := gen_token pick 6 }
            (.success new_order.id,
             { db with orders := db.orders ++ [new_order],
                       next_order_id := db.next_order_id + 1 })

inductive PayResult where
  | redirectLogin
  | notFound
  | forbidden
  | success
deriving Repr, DecidableEq

/-- POST `/payment/<order_id>` (`payment`): mark the order Paid.  The
`method` form field is only echoed in the flash message. -/
def payment (sess : Option Session) (db : DB) (order_id : Nat)
    (method : String) : PayResult × DB :=
  if !is_logged_in sess || is_admin sess then (.redirectLogin, db)
  else match sess with
  | none => (.redirectLogin, db)
  | some s =>
    match get_order db order_id with
    | none => (.notFound, db)
    | some order =>
      if order.username ≠ s.username ∧ !is_admin sess then (.forbidden, db)
      else
        (.success,
         { db with orders := (update_order db.orders order_id
              (fun o => { o with payment_status := "Paid" })) })

inductive CancelResult where
  | redirectLogin
  | notFound
  | forbidden
  | invalidState
  | success
deriving Repr, DecidableEq

/-- POST `/order/cancel/<order_id>` (`cancel_order`). -/
def cancel_order (sess : Option Session) (db : DB) (order_id : Nat) :
    CancelResult × DB :=
  if !is_logged_in sess || is_admin sess then (.redirectLogin, db)
  else match sess with
  | none => (.redirectLogin, db)
  | some s =>
    match get_order db order_id with
    | none => (.notFound, db)
    | some o =>
      if o.username ≠ s.username then (.forbidden, db)
      else if o.status ≠ "Pending" then (.invalidState, db)
      else
        (.success,
         { db with orders := (update_order db.orders order_id
              (fun x => { x with status := "Cancelled" })) })

/-- The `orders` listing of `/order/history`: the session user's orders. -/
def user_orders (db : DB) (username : String) : List Order :=
  db.orders.filter (fun o => o.username = username)

/-- `total_spent` of `/order/history`:
`sum(o.total_price for o in orders if o.payment_status == "Paid")`. -/
def total_spent (db : DB) (username : String) : ℚ :=
  (((user_orders db username).filter
      (fun o => o.payment_status = "Paid")).map
    (fun o => o.total_price)).sum

/-- Round to the nearest integer, ties to even — the rounding mode of
Python's built-in `round` (the model works over exact rationals; binary
floating-point representation error is outside its scope). -/
def roundHalfEven (q : ℚ) : ℤ :=
  let n := ⌊q⌋
  let f := q - n
  if f < 1 / 2 then n
  else if 1 / 2 < f then n + 1
  else if n % 2 = 0 then n else n + 1

/-- `round(x, 2)`. -/
def round2 (q : ℚ) : ℚ :=
  (roundHalfEven (100 * q) : ℚ) / 100

/-- The `avg_rating` computed per item by the `/menu` route:
`None` when the item has no feedback, else `round(sum/len, 2)`. -/
def avg_rating (db : DB) (item_id : Nat) : Option ℚ :=
  let ratings := db.feedbacks.filter (fun f => f.item_id = item_id)
  if ratings.isEmpty then none
  else some (round2 ((ratings.map (fun f => (f.rating : ℚ))).sum / (ratings.length : ℚ)))

/-- `float(s)` on a plain decimal literal: optional sign, then
`digits`, `digits.digits`, `digits.` or `.digits`.  `none` models the
`ValueError` for anything unparsable. -/
def parsePrice (s : String) : Option ℚ :=
  let cs := s.data
  let sign : ℚ := match cs with
    | '-' :: _ => -1
    | _ => 1
  let body : List Char := match cs with
    | '-' :: r => r
    | '+' :: r => r
    | r => r
  let intPart := body.takeWhile Char.isDigit
  match body.dropWhile Char.isDigit with
  | [] =>
    if intPart.isEmpty then none
    else some (sign * (digitsVal intPart : ℚ))
  | '.' :: fracPart =>
    if fracPart.all Char.isDigit ∧ (intPart ≠ [] ∨ fracPart ≠ []) then
      some (sign * ((digitsVal intPart : ℚ)
        + (digitsVal fracPart : ℚ) / ((10 : ℚ) ^ fracPart.length)))
    else none
  | _ => none

inductive AddItemResult where
  | redirectLogin
  | missingInput
  | invalidPrice
  | success
deriving Repr, DecidableEq

/-- POST `/admin/menu` (`admin_menu`): add a menu item.  The four arguments
after the state are the raw form fields. -/
def admin_menu_add (sess : Option Session) (db : DB)
    (name price available_from available_to : String) : AddItemResult × DB :=
  if !is_logged_in sess || !is_admin sess then (.redirectLogin, db)
  else
    let nm := strip name
    let pr := strip price
    let af := if strip available_from = "" then none else some (strip available_from)
    let at_ := if strip available_to = "" then none else some (strip available_to)
    if nm = "" ∨ pr = "" then (.missingInput, db)
    else match parsePrice pr with
      | none => (.invalidPrice, db)
      | some price_val =>
        (.success,
         { db with items := db.items ++
             [{ id := db.next_item_id, name := nm, price := price_val,
                available := true, available_from := af, available_to := at_ }],
                   next_item_id := db.next_item_id + 1 })

inductive UpdateStatusResult where
  | redirectLogin
  | noop
  | notFound
  | parseError
  | success
deriving Repr, DecidableEq

/-- `int(s)` on a decimal literal with optional leading minus sign.
`none` models the `ValueError` for anything unparsable. -/
def parseInt (s : String) : Option Int :=
  match s.data with
  | '-' :: r =>
    if r ≠ [] ∧ r.all Char.isDigit then some (-(digitsVal r : Int)) else none
  | r =>
    if r ≠ [] ∧ r.all Char.isDigit then some ((digitsVal r : Int)) else none

/-- POST `/admin/orders/update` (`admin_update_order`).  `oid` and
`new_status` are the raw form fields (`None` when absent); `.noop` is the
silent fall-through of `if oid and new_status`, `.parseError` the caught
`int(oid)` exception. -/
def admin_update_order (sess : Option Session) (db : DB)
    (oid : Option String) (new_status : Option String) : UpdateStatusResult × DB :=
  if !is_logged_in sess || !is_admin sess then (.redirectLogin, db)
  else if !truthy oid ∨ !truthy new_status then (.noop, db)
  else
    let os := oid.getD ""
    let ns := new_status.getD ""
    match parseInt os with
    | none => (.parseError, db)
    | some i =>
      match db.orders.find? (fun o => (o.id : Int) = i) with
      | none => (.notFound, db)
      | some o =>
        (.success,
         { db with orders := (update_order db.orders o.id
              (fun x => { x with status := ns })) })

inductive FeedbackResult where
  | redirectLogin
  | invalidRating
  | success
deriving Repr, DecidableEq

/-- POST `/feedback/<item_id>` (`submit_feedback`): `rating` is the parsed
integer form field. -/
def submit_feedback (sess : Option Session) (db : DB) (item_id : Nat)
    (rating : Int) (comment : String) : FeedbackResult × DB :=
  if !is_logged_in sess || is_admin sess then (.redirectLogin, db)
  else match sess with
  | none => (.redirectLogin, db)
  | some s =>
    let cm := strip comment
    if rating < 1 ∨ rating > 5 then (.invalidRating, db)
    else
      (.success,
       { db with feedbacks := db.feedbacks ++
           [{ id := db.next_feedback_id, item_id := item_id,
              username := s.username, rating := rating, comment := cm }],
                 next_feedback_id := db.next_feedback_id + 1 })

lemma parseHHMM_empty : parseHHMM "" = none := by decide

lemma truthy_of_parse {f : String} {v : Nat} (h : parseHHMM f = some v) :
    truthy (some f) = true := by
  by_cases hf : f = ""
  · rw [hf, parseHHMM_empty] at h
    cases h
  · simp [truthy, hf]

/-- C1: the Availability Evaluator.  (a) an item whose `available` flag is
false is never available; (b) with both bounds set (to valid HH:MM times)
it is available iff `from ≤ now ≤ to`, inclusive at both endpoints; (c) with
either bound unset it is always available while the flag is true; (d) a
window with `from > to` never matches at any instant. -/
theorem in_availability_spec :
    (∀ (item : MenuItem) (now : Nat), item.available = false →
        in_availability item now = .ok false) ∧
    (∀ (item : MenuItem) (now : Nat) (f t : String) (fr to_ : Nat),
        item.available = true →
        item.available_from = some f → item.available_to = some t →
        parseHHMM f = some fr → parseHHMM t = some to_ →
        (in_availability item now = .ok true ↔ (fr ≤ now ∧ now ≤ to_))) ∧
    (∀ (item : MenuItem) (now : Nat), item.available = true →
        (item.available_from = none ∨ item.available_to = none) →
        in_availability item now = .ok true) ∧
    (∀ (item : MenuItem) (now : Nat) (f t : String) (fr to_ : Nat),
        item.available_from = some f → item.available_to = some t →
        parseHHMM f = some fr → parseHHMM t = some to_ → to_ < fr →
        in_availability item now ≠ .ok true) := by
  refine ⟨?_, ?_, ?_, ?_⟩
  · intro item now h
    simp [in_availability, h]
  · intro item now f t fr to_ hav hf ht hpf hpt
    rw [in_availability]
    simp only [hav, hf, ht, Bool.not_true, truthy_of_parse hpf, truthy_of_parse hpt,
      Bool.and_self, Option.getD_some, hpf, hpt, Bool.false_eq_true, if_false, if_true]
    by_cases hw : fr ≤ now ∧ now ≤ to_
    · simp [hw]
    · simp [hw]
  · intro item now hav hun
    rcases hun with h | h <;>
      simp [in_availability, hav, truthy, h]
  · intro item now f t fr to_ hf ht hpf hpt hlt
    rcases hav : item.available with _ | _
    · simp [in_availability, hav]
    · rw [in_availability]
      simp only [hav, hf, ht, Bool.not_true, truthy_of_parse hpf, truthy_of_parse hpt,
        Bool.and_self, Option.getD_some, hpf, hpt, Bool.false_eq_true, if_false, if_true]
      have : ¬ (fr ≤ now ∧ now ≤ to_) := by omega
      simp [this]

/-- An item fully within a window, one outside, one disabled, one unbounded,
and an inverted (midnight-crossing) window, evaluated concretely. -/
theorem in_availability_spec_witness :
    in_availability ⟨1, "Idli", 30, false, some "07:00", some "10:30"⟩ 30600 = .ok false ∧
    (in_availability ⟨2, "Dosa", 40, true, some "07:00", some "11:00"⟩ 30600 = .ok true ↔
      (25200 ≤ 30600 ∧ 30600 ≤ 39600)) ∧
    in_availability ⟨3, "Tea", 10, true, none, some "11:00"⟩ 30600 = .ok true ∧
    in_availability ⟨4, "Late", 50, true, some "22:00", some "02:00"⟩ 30600 ≠ .ok true := by
  refine ⟨?_, ?_, ?_, ?_⟩
  · exact in_availability_spec.1 _ 30600 rfl
  · exact in_availability_spec.2.1 _ 30600 "07:00" "11:00" 25200 39600 rfl rfl rfl
      (by decide) (by decide)
  · exact in_availability_spec.2.2.1 _ 30600 rfl (Or.inl rfl)
  · exact in_availability_spec.2.2.2 _ 30600 "22:00" "02:00" 79200 7200 rfl rfl
      (by decide) (by decide) (by decide)

instance : DecidableEq (Except Unit Bool) := fun a b =>
  match a, b with
  | .ok x, .ok y =>
    if h : x = y then isTrue (by rw [h]) else isFalse (by simp [h])
  | .error x, .error y => isTrue (by cases x; cases y; rfl)
  | .ok _, .error _ => isFalse (by simp)
  | .error _, .ok _ => isFalse (by simp)

/-- The item and store used by concrete instantiations below. -/
def samosa : MenuItem :=
  ⟨3, "Samosa", 15, true, some "09:00", some "17:00"⟩

def dbSamosa : DB :=
  ⟨[samosa], [], [], 9, 1, 1⟩

lemma gen_token_length (pick : Nat → Fin 36) (n : Nat) :
    (gen_token pick n).length = n := by
  simp [gen_token, String.length]

/-- C2: placeOrder.  With a logged-in student and an existing item:
if the Availability Evaluator rejects the item the request fails
(`ItemUnavailable`) with no order persisted; if the pickup time is empty or
the AM/PM designator is not one of "AM"/"PM" it fails (`InvalidInput`) with
no order persisted; otherwise exactly one new order is appended, with the
item's name and price snapshotted, status `Pending`, payment status
`Unpaid` and a freshly generated six-character token, and the new order's
identifier is returned. -/
theorem order_form_spec (s : Session) (db : DB) (item_id now : Nat)
    (tv ap : String) (pick : Nat → Fin 36) (item : MenuItem)
    (hadm : s.role ≠ "admin") (hitem : get_item db item_id = some item) :
    (in_availability item now = .ok false →
      order_form (some s) db item_id now tv ap pick = (.itemUnavailable, db)) ∧
    (in_availability item now = .ok true →
      (strip tv = "" ∨ (strip ap ≠ "AM" ∧ strip ap ≠ "PM")) →
      order_form (some s) db item_id now tv ap pick = (.invalidInput, db)) ∧
    (in_availability item now = .ok true →
      strip tv ≠ "" → (strip ap = "AM" ∨ strip ap = "PM") →
      order_form (some s) db item_id now tv ap pick =
        (.success db.next_order_id,
         { db with
            orders := db.orders ++
              [{ id := db.next_order_id, username := s.username,
                 item_name := item.name, total_price := item.price,
                 pickup_time := strip tv ++ " " ++ strip ap, status := "Pending",
                 payment_status := "Unpaid", token := gen_token pick 6 }],
            next_order_id := db.next_order_id + 1 }) ∧
      (gen_token pick 6).length = 6) := by
  have hia : is_admin (some s) = false := by
    simp [is_admin, hadm]
  refine ⟨?_, ?_, ?_⟩
  · intro hav
    simp [order_form, is_logged_in, hia, hitem, hav]
  · intro hav hbad
    rw [order_form]
    simp only [is_logged_in, Option.isSome_some, Bool.not_true, hia, Bool.or_false,
      hitem, hav]
    rw [if_pos hbad]
    simp
  · intro hav htv hap
    have hcond : ¬ (strip tv = "" ∨ (strip ap ≠ "AM" ∧ strip ap ≠ "PM")) := by
      push_neg
      exact ⟨htv, fun h => hap.resolve_left h⟩
    rw [order_form]
    simp only [is_logged_in, Option.isSome_some, Bool.not_true, hia, Bool.or_false,
      hitem, hav]
    rw [if_neg hcond]
    refine ⟨?_, gen_token_length pick 6⟩
    simp

/-- A student orders a Samosa at 10:00 with pickup "12:30 PM"; off-window
and missing-AM/PM attempts fail without persisting anything. -/
theorem order_form_spec_witness :
    (order_form (some ⟨"alice", "user"⟩) dbSamosa
        3 64800 "12:30" "PM" (fun _ => 0) = (.itemUnavailable, dbSamosa)) ∧
    (order_form (some ⟨"alice", "user"⟩) dbSamosa
        3 36000 "12:30" "" (fun _ => 0) = (.invalidInput, dbSamosa)) ∧
    (order_form (some ⟨"alice", "user"⟩) dbSamosa
        3 36000 "12:30" "PM" (fun _ => 0) =
      (.success 1,
       ⟨[samosa],
        [⟨1, "alice", "Samosa", 15, "12:30 PM", "Pending", "Unpaid", "AAAAAA"⟩],
        [], 9, 2, 1⟩)) := by
  refine ⟨?_, ?_, ?_⟩
  · exact (order_form_spec ⟨"alice", "user"⟩ dbSamosa 3 64800 "12:30" "PM"
      (fun _ => 0) samosa (by decide) rfl).1 rfl
  · exact (order_form_spec ⟨"alice", "user"⟩ dbSamosa 3 36000 "12:30" ""
      (fun _ => 0) samosa (by decide) rfl).2.1 rfl (by decide)
  · have h := (order_form_spec ⟨"alice", "user"⟩ dbSamosa 3 36000 "12:30" "PM"
      (fun _ => 0) samosa (by decide) rfl).2.2 rfl (by decide) (by decide)
    rw [h.1]
    rfl

lemma get_order_fresh (pre post : List Order) (o : Order) (oid : Nat)
    (hpre : ∀ x ∈ pre, x.id ≠ oid) (ho : o.id = oid) :
    (pre ++ o :: post).find? (fun x => x.id = oid) = some o := by
  induction pre with
  | nil =>
    simp [List.find?, ho]
  | cons a t ih =>
    rw [List.cons_append, List.find?_cons_of_neg]
    · exact ih fun x hx => hpre x (List.mem_cons_of_mem a hx)
    · simp [hpre a (List.mem_cons_self a t)]

lemma update_order_fresh (pre post : List Order) (o : Order) (oid : Nat)
    (g : Order → Order)
    (hpre : ∀ x ∈ pre, x.id ≠ oid) (hpost : ∀ x ∈ post, x.id ≠ oid)
    (ho : o.id = oid) :
    update_order (pre ++ o :: post) oid g = pre ++ g o :: post := by
  have h1 : pre.map (fun x => if x.id = oid then g x else x) = pre := by
    conv_rhs => rw [← List.map_id pre]
    exact List.map_congr_left fun a ha => by simp [hpre a ha]
  have h2 : post.map (fun x => if x.id = oid then g x else x) = post := by
    conv_rhs => rw [← List.map_id post]
    exact List.map_congr_left fun a ha => by simp [hpost a ha]
  simp only [update_order, List.map_append, List.map_cons, if_pos ho]
  rw [h1, h2]

/-- C3: cancelOrder.  For a logged-in student acting on an existing order:
not the owner → `Forbidden`, store unchanged; owner but status ≠ Pending →
`InvalidState`, store unchanged; owner and status = Pending → success,
status becomes Cancelled; and immediately cancelling again fails with
`InvalidState`, leaving the order Cancelled. -/
theorem cancel_order_spec (s : Session) (db : DB) (pre post : List Order)
    (o : Order) (hadm : s.role ≠ "admin") (hdb : db.orders = pre ++ o :: post)
    (hpre : ∀ x ∈ pre, x.id ≠ o.id) (hpost : ∀ x ∈ post, x.id ≠ o.id) :
    (o.username ≠ s.username →
      cancel_order (some s) db o.id = (.forbidden, db)) ∧
    (o.username = s.username → o.status ≠ "Pending" →
      cancel_order (some s) db o.id = (.invalidState, db)) ∧
    (o.username = s.username → o.status = "Pending" →
      cancel_order (some s) db o.id =
        (.success,
         { db with orders := pre ++ { o with status := "Cancelled" } :: post }) ∧
      cancel_order (some s)
          { db with orders := pre ++ { o with status := "Cancelled" } :: post }
          o.id =
        (.invalidState,
         { db with orders := pre ++ { o with status := "Cancelled" } :: post })) := by
  have hia : is_admin (some s) = false := by
    simp [is_admin, hadm]
  have hfind : get_order db o.id = some o := by
    rw [get_order, hdb]
    exact get_order_fresh pre post o o.id hpre rfl
  refine ⟨?_, ?_, ?_⟩
  · intro hne
    rw [cancel_order]
    simp only [is_logged_in, Option.isSome_some, Bool.not_true, hia, Bool.or_false,
      hfind]
    rw [if_pos hne]
    simp
  · intro hown hst
    rw [cancel_order]
    simp only [is_logged_in, Option.isSome_some, Bool.not_true, hia, Bool.or_false,
      hfind]
    rw [if_neg (not_not_intro hown), if_pos hst]
    simp
  · intro hown hst
    constructor
    · rw [cancel_order]
      simp only [is_logged_in, Option.isSome_some, Bool.not_true, hia, Bool.or_false,
        hfind]
      rw [if_neg (not_not_intro hown), if_neg (not_not_intro hst)]
      simp only [hdb]
      rw [update_order_fresh pre post o o.id _ hpre hpost rfl]
      simp
    · have hfind2 : get_order
          { db with orders := pre ++ { o with status := "Cancelled" } :: post }
          o.id = some { o with status := "Cancelled" } := by
        rw [get_order]
        exact get_order_fresh pre post { o with status := "Cancelled" } o.id hpre rfl
      have hst2 : ({ o with status := "Cancelled" } : Order).status ≠ "Pending" := by
        simp
      rw [cancel_order]
      simp only [is_logged_in, Option.isSome_some, Bool.not_true, hia, Bool.or_false,
        hfind2]
      rw [if_neg (not_not_intro hown), if_pos hst2]
      simp

/-- Bob cancels his Pending order; a second cancel fails and the order
stays Cancelled; Alice cannot cancel Bob's order; a Preparing order
cannot be cancelled. -/
theorem cancel_order_spec_witness :
    (cancel_order (some ⟨"alice", "user"⟩)
        ⟨[], [⟨1, "bob", "Samosa", 15, "12:30 PM", "Pending", "Unpaid", "AAAAAA"⟩],
         [], 1, 2, 1⟩ 1 =
      (.forbidden,
       ⟨[], [⟨1, "bob", "Samosa", 15, "12:30 PM", "Pending", "Unpaid", "AAAAAA"⟩],
        [], 1, 2, 1⟩)) ∧
    (cancel_order (some ⟨"bob", "user"⟩)
        ⟨[], [⟨1, "bob", "Samosa", 15, "12:30 PM", "Preparing", "Unpaid", "AAAAAA"⟩],
         [], 1, 2, 1⟩ 1 =
      (.invalidState,
       ⟨[], [⟨1, "bob", "Samosa", 15, "12:30 PM", "Preparing", "Unpaid", "AAAAAA"⟩],
        [], 1, 2, 1⟩)) ∧
    (cancel_order (some ⟨"bob", "user"⟩)
        ⟨[], [⟨1, "bob", "Samosa", 15, "12:30 PM", "Pending", "Unpaid", "AAAAAA"⟩],
         [], 1, 2, 1⟩ 1 =
      (.success,
       ⟨[], [⟨1, "bob", "Samosa", 15, "12:30 PM", "Cancelled", "Unpaid", "AAAAAA"⟩],
        [], 1, 2, 1⟩)) ∧
    (cancel_order (some ⟨"bob", "user"⟩)
        ⟨[], [⟨1, "bob", "Samosa", 15, "12:30 PM", "Cancelled", "Unpaid", "AAAAAA"⟩],
         [], 1, 2, 1⟩ 1 =
      (.invalidState,
       ⟨[], [⟨1, "bob", "Samosa", 15, "12:30 PM", "Cancelled", "Unpaid", "AAAAAA"⟩],
        [], 1, 2, 1⟩)) := by
  refine ⟨?_, ?_, ?_, ?_⟩
  · exact (cancel_order_spec ⟨"alice", "user"⟩
      ⟨[], [⟨1, "bob", "Samosa", 15, "12:30 PM", "Pending", "Unpaid", "AAAAAA"⟩],
       [], 1, 2, 1⟩ []
      [] ⟨1, "bob", "Samosa", 15, "12:30 PM", "Pending", "Unpaid", "AAAAAA"⟩
      (by decide) rfl (by simp) (by simp)).1 (by decide)
  · exact (cancel_order_spec ⟨"bob", "user"⟩
      ⟨[], [⟨1, "bob", "Samosa", 15, "12:30 PM", "Preparing", "Unpaid", "AAAAAA"⟩],
       [], 1, 2, 1⟩ []
      [] ⟨1, "bob", "Samosa", 15, "12:30 PM", "Preparing", "Unpaid", "AAAAAA"⟩
      (by decide) rfl (by simp) (by simp)).2.1 rfl (by decide)
  · exact ((cancel_order_spec ⟨"bob", "user"⟩
      ⟨[], [⟨1, "bob", "Samosa", 15, "12:30 PM", "Pending", "Unpaid", "AAAAAA"⟩],
       [], 1, 2, 1⟩ []
      [] ⟨1, "bob", "Samosa", 15, "12:30 PM", "Pending", "Unpaid", "AAAAAA"⟩
      (by decide) rfl (by simp) (by simp)).2.2 rfl rfl).1
  · exact ((cancel_order_spec ⟨"bob", "user"⟩
      ⟨[], [⟨1, "bob", "Samosa", 15, "12:30 PM", "Pending", "Unpaid", "AAAAAA"⟩],
       [], 1, 2, 1⟩ []
      [] ⟨1, "bob", "Samosa", 15, "12:30 PM", "Pending", "Unpaid", "AAAAAA"⟩
      (by decide) rfl (by simp) (by simp)).2.2 rfl rfl).2

/-- C4 counterexample: the payment route's first guard
(`if not is_logged_in() or is_admin()`) redirects every admin session to
the login page, so an admin can never record a payment — contrary to the
claim that both the owner and any admin can.  Concretely, the default
admin acting on Bob's existing order is bounced and nothing is marked
Paid. -/
theorem payment_admin_counterexample :
    payment (some ⟨"canteen_admin", "admin"⟩)
        ⟨[], [⟨1, "bob", "Samosa", 15, "12:30 PM", "Pending", "Unpaid", "AAAAAA"⟩],
         [], 1, 2, 1⟩ 1 "Card" =
      (.redirectLogin,
       ⟨[], [⟨1, "bob", "Samosa", 15, "12:30 PM", "Pending", "Unpaid", "AAAAAA"⟩],
        [], 1, 2, 1⟩) ∧
    (payment (some ⟨"canteen_admin", "admin"⟩)
        ⟨[], [⟨1, "bob", "Samosa", 15, "12:30 PM", "Pending", "Unpaid", "AAAAAA"⟩],
         [], 1, 2, 1⟩ 1 "Card").1 ≠ .success := by
  exact ⟨rfl, by decide⟩

/-- C4 (amended): recordPayment, as implemented.  For a logged-in non-admin
acting user: `NotFound` when the order id does not exist; `Forbidden`
exactly when the acting user is not the order's owner; on success the
order's `payment_status` is set to Paid (the method only decorates the
flash message).  Admin sessions never reach the operation: they are
redirected to the login page. -/
theorem payment_spec (s : Session) (db : DB) (oid : Nat) (m : String)
    (hadm : s.role ≠ "admin") :
    (get_order db oid = none → payment (some s) db oid m = (.notFound, db)) ∧
    (∀ o, get_order db oid = some o → o.username ≠ s.username →
      payment (some s) db oid m = (.forbidden, db)) ∧
    (∀ o, get_order db oid = some o → o.username = s.username →
      payment (some s) db oid m =
        (.success,
         { db with orders := (update_order db.orders oid
              (fun x => { x with payment_status := "Paid" })) })) ∧
    (∀ a : Session, a.role = "admin" →
      payment (some a) db oid m = (.redirectLogin, db)) := by
  have hia : is_admin (some s) = false := by
    simp [is_admin, hadm]
  refine ⟨?_, ?_, ?_, ?_⟩
  · intro hnone
    simp [payment, is_logged_in, hia, hnone]
  · intro o hfind hne
    simp [payment, is_logged_in, hia, hfind, hne]
  · intro o hfind hown
    simp [payment, is_logged_in, hia, hfind, hown]
  · intro a ha
    simp [payment, is_admin, ha]

/-- Bob pays his own order (success, Paid); Alice is forbidden; a missing
order id is not found. -/
theorem payment_spec_witness :
    payment (some ⟨"bob", "user"⟩)
        ⟨[], [⟨1, "bob", "Samosa", 15, "12:30 PM", "Pending", "Unpaid", "AAAAAA"⟩],
         [], 1, 2, 1⟩ 1 "Card" =
      (.success,
       ⟨[], [⟨1, "bob", "Samosa", 15, "12:30 PM", "Pending", "Paid", "AAAAAA"⟩],
        [], 1, 2, 1⟩) ∧
    payment (some ⟨"alice", "user"⟩)
        ⟨[], [⟨1, "bob", "Samosa", 15, "12:30 PM", "Pending", "Unpaid", "AAAAAA"⟩],
         [], 1, 2, 1⟩ 1 "Card" =
      (.forbidden,
       ⟨[], [⟨1, "bob", "Samosa", 15, "12:30 PM", "Pending", "Unpaid", "AAAAAA"⟩],
        [], 1, 2, 1⟩) ∧
    payment (some ⟨"bob", "user"⟩)
        ⟨[], [⟨1, "bob", "Samosa", 15, "12:30 PM", "Pending", "Unpaid", "AAAAAA"⟩],
         [], 1, 2, 1⟩ 7 "Card" =
      (.notFound,
       ⟨[], [⟨1, "bob", "Samosa", 15, "12:30 PM", "Pending", "Unpaid", "AAAAAA"⟩],
        [], 1, 2, 1⟩) := by
  refine ⟨?_, ?_, ?_⟩
  · have h := (payment_spec ⟨"bob", "user"⟩
      ⟨[], [⟨1, "bob", "Samosa", 15, "12:30 PM", "Pending", "Unpaid", "AAAAAA"⟩],
       [], 1, 2, 1⟩ 1 "Card" (by decide)).2.2.1
      ⟨1, "bob", "Samosa", 15, "12:30 PM", "Pending", "Unpaid", "AAAAAA"⟩ rfl rfl
    rw [h]
    rfl
  · exact (payment_spec ⟨"alice", "user"⟩
      ⟨[], [⟨1, "bob", "Samosa", 15, "12:30 PM", "Pending", "Unpaid", "AAAAAA"⟩],
       [], 1, 2, 1⟩ 1 "Card" (by decide)).2.1
      ⟨1, "bob", "Samosa", 15, "12:30 PM", "Pending", "Unpaid", "AAAAAA"⟩ rfl
      (by decide)
  · exact (payment_spec ⟨"bob", "user"⟩
      ⟨[], [⟨1, "bob", "Samosa", 15, "12:30 PM", "Pending", "Unpaid", "AAAAAA"⟩],
       [], 1, 2, 1⟩ 7 "Card" (by decide)).1 rfl

lemma find?_fresh {α : Type} (pre post : List α) (o : α) (p : α → Bool)
    (hpre : ∀ x ∈ pre, p x = false) (ho : p o = true) :
    (pre ++ o :: post).find? p = some o := by
  induction pre with
  | nil =>
    simp [List.find?, ho]
  | cons a t ih =>
    rw [List.cons_append, List.find?_cons_of_neg]
    · exact ih fun x hx => hpre x (List.mem_cons_of_mem a hx)
    · simp [hpre a (List.mem_cons_self a t)]

/-- C5 counterexample: the admin order-update route stores any non-empty
status string without validating it against the five known values.  With
the status form field "Bogus" the update succeeds and "Bogus" is persisted,
contrary to the claim that such a value is rejected rather than stored. -/
theorem admin_update_order_counterexample :
    admin_update_order (some ⟨"canteen_admin", "admin"⟩)
        ⟨[], [⟨1, "bob", "Samosa", 15, "12:30 PM", "Pending", "Unpaid", "AAAAAA"⟩],
         [], 1, 2, 1⟩ (some "1") (some "Bogus") =
      (.success,
       ⟨[], [⟨1, "bob", "Samosa", 15, "12:30 PM", "Bogus", "Unpaid", "AAAAAA"⟩],
        [], 1, 2, 1⟩) := by
  decide

/-- C5 (amended): updateStatus, as implemented.  Non-admin sessions are
redirected to the login page; with both form fields present and non-empty,
an unparsable order id yields the caught-exception path, an id matching no
order flashes "Order not found", and an existing order has its status set
unconditionally to the given string — with no validation against the five
known values: any non-empty string, including ones outside
{Pending, Preparing, Ready, Completed, Cancelled}, is stored. -/
theorem admin_update_order_spec (db : DB) (os ns : String) (s a : Session)
    (hs : s.role ≠ "admin") (ha : a.role = "admin")
    (hos : os ≠ "") (hns : ns ≠ "") :
    (admin_update_order (some s) db (some os) (some ns) = (.redirectLogin, db)) ∧
    (parseInt os = none →
      admin_update_order (some a) db (some os) (some ns) = (.parseError, db)) ∧
    (∀ i : Int, parseInt os = some i →
      db.orders.find? (fun o => (o.id : Int) = i) = none →
      admin_update_order (some a) db (some os) (some ns) = (.notFound, db)) ∧
    (∀ (i : Int) (pre post : List Order) (o : Order),
      parseInt os = some i → db.orders = pre ++ o :: post → (o.id : Int) = i →
      (∀ x ∈ pre, x.id ≠ o.id) → (∀ x ∈ post, x.id ≠ o.id) →
      admin_update_order (some a) db (some os) (some ns) =
        (.success,
         { db with orders := pre ++ { o with status := ns } :: post })) := by
  have hta : is_admin (some a) = true := by
    simp [is_admin, ha]
  refine ⟨?_, ?_, ?_, ?_⟩
  · simp [admin_update_order, is_logged_in, is_admin, hs]
  · intro hparse
    simp [admin_update_order, is_logged_in, hta, truthy, hos, hns, hparse]
  · intro i hparse hnone
    simp [admin_update_order, is_logged_in, hta, truthy, hos, hns, hparse, hnone]
  · intro i pre post o hparse hdb hoid hpre hpost
    have hfind : db.orders.find? (fun x => (x.id : Int) = i) = some o := by
      rw [hdb]
      refine find?_fresh pre post o _ (fun x hx => ?_) (by simp [hoid])
      simp only [decide_eq_false_iff_not]
      intro hxe
      exact hpre x hx (by exact_mod_cast hoid ▸ hxe)
    have hupd : update_order db.orders o.id (fun x => { x with status := ns }) =
        pre ++ { o with status := ns } :: post := by
      rw [hdb]
      exact update_order_fresh pre post o o.id _ hpre hpost rfl
    simp [admin_update_order, is_logged_in, hta, truthy, hos, hns, hparse, hfind,
      hupd]

/-- The admin renames a status to "Ready" on an existing order, hits the
not-found flash on a missing id, and a student is redirected. -/
theorem admin_update_order_spec_witness :
    (admin_update_order (some ⟨"bob", "user"⟩)
        ⟨[], [⟨1, "bob", "Samosa", 15, "12:30 PM", "Pending", "Unpaid", "AAAAAA"⟩],
         [], 1, 2, 1⟩ (some "1") (some "Ready") =
      (.redirectLogin,
       ⟨[], [⟨1, "bob", "Samosa", 15, "12:30 PM", "Pending", "Unpaid", "AAAAAA"⟩],
        [], 1, 2, 1⟩)) ∧
    (admin_update_order (some ⟨"canteen_admin", "admin"⟩)
        ⟨[], [⟨1, "bob", "Samosa", 15, "12:30 PM", "Pending", "Unpaid", "AAAAAA"⟩],
         [], 1, 2, 1⟩ (some "oops") (some "Ready") =
      (.parseError,
       ⟨[], [⟨1, "bob", "Samosa", 15, "12:30 PM", "Pending", "Unpaid", "AAAAAA"⟩],
        [], 1, 2, 1⟩)) ∧
    (admin_update_order (some ⟨"canteen_admin", "admin"⟩)
        ⟨[], [⟨1, "bob", "Samosa", 15, "12:30 PM", "Pending", "Unpaid", "AAAAAA"⟩],
         [], 1, 2, 1⟩ (some "7") (some "Ready") =
      (.notFound,
       ⟨[], [⟨1, "bob", "Samosa", 15, "12:30 PM", "Pending", "Unpaid", "AAAAAA"⟩],
        [], 1, 2, 1⟩)) ∧
    (admin_update_order (some ⟨"canteen_admin", "admin"⟩)
        ⟨[], [⟨1, "bob", "Samosa", 15, "12:30 PM", "Pending", "Unpaid", "AAAAAA"⟩],
         [], 1, 2, 1⟩ (some "1") (some "Ready") =
      (.success,
       ⟨[], [⟨1, "bob", "Samosa", 15, "12:30 PM", "Ready", "Unpaid", "AAAAAA"⟩],
        [], 1, 2, 1⟩)) := by
  refine ⟨?_, ?_, ?_, ?_⟩
  · exact (admin_update_order_spec
      ⟨[], [⟨1, "bob", "Samosa", 15, "12:30 PM", "Pending", "Unpaid", "AAAAAA"⟩],
       [], 1, 2, 1⟩ "1" "Ready" ⟨"bob", "user"⟩ ⟨"canteen_admin", "admin"⟩
      (by decide) rfl (by decide) (by decide)).1
  · exact (admin_update_order_spec
      ⟨[], [⟨1, "bob", "Samosa", 15, "12:30 PM", "Pending", "Unpaid", "AAAAAA"⟩],
       [], 1, 2, 1⟩ "oops" "Ready" ⟨"bob", "user"⟩ ⟨"canteen_admin", "admin"⟩
      (by decide) rfl (by decide) (by decide)).2.1 rfl
  · exact (admin_update_order_spec
      ⟨[], [⟨1, "bob", "Samosa", 15, "12:30 PM", "Pending", "Unpaid", "AAAAAA"⟩],
       [], 1, 2, 1⟩ "7" "Ready" ⟨"bob", "user"⟩ ⟨"canteen_admin", "admin"⟩
      (by decide) rfl (by decide) (by decide)).2.2.1 7 rfl rfl
  · have h := (admin_update_order_spec
      ⟨[], [⟨1, "bob", "Samosa", 15, "12:30 PM", "Pending", "Unpaid", "AAAAAA"⟩],
       [], 1, 2, 1⟩ "1" "Ready" ⟨"bob", "user"⟩ ⟨"canteen_admin", "admin"⟩
      (by decide) rfl (by decide) (by decide)).2.2.2 1 []
      [] ⟨1, "bob", "Samosa", 15, "12:30 PM", "Pending", "Unpaid", "AAAAAA"⟩
      rfl rfl rfl (by simp) (by simp)
    rw [h]
    rfl

/-- The store for the worked totalSpent example: Alice's orders priced
100 (Paid), 50 (Unpaid) and 30 (Paid). -/
def dbAliceSpent : DB :=
  ⟨[],
   [⟨1, "alice", "Chicken Biryani", 100, "12:30 PM", "Completed", "Paid", "TOK001"⟩,
    ⟨2, "alice", "Veg Biryani", 50, "12:30 PM", "Completed", "Unpaid", "TOK002"⟩,
    ⟨3, "alice", "Idli", 30, "12:30 PM", "Completed", "Paid", "TOK003"⟩],
   [], 1, 4, 1⟩

/-- C6: totalSpent(username) is the sum of total_price over exactly that
user's orders with payment_status = Paid; appending a non-Paid order
changes nothing; and for orders priced 100 (Paid), 50 (Unpaid), 30 (Paid)
the result is 130. -/
theorem total_spent_spec :
    (∀ (db : DB) (u : String), total_spent db u =
      ((db.orders.filter
          (fun o => o.username = u ∧ o.payment_status = "Paid")).map
        (fun o => o.total_price)).sum) ∧
    (∀ (db : DB) (u : String) (o : Order), o.payment_status ≠ "Paid" →
      total_spent { db with orders := db.orders ++ [o] } u = total_spent db u) ∧
    total_spent dbAliceSpent "alice" = 130 := by
  refine ⟨?_, ?_, ?_⟩
  · intro db u
    rw [total_spent, user_orders, List.filter_filter]
    have hpred : (fun (a : Order) =>
        decide (a.payment_status = "Paid") && decide (a.username = u)) =
        fun o => decide (o.username = u ∧ o.payment_status = "Paid") := by
      funext x
      by_cases h1 : x.username = u <;> by_cases h2 : x.payment_status = "Paid" <;>
        simp [h1, h2]
    rw [hpred]
  · intro db u o hne
    by_cases ho : o.username = u <;>
      simp [total_spent, user_orders, List.filter_append, ho, hne]
  · simp +decide [total_spent, user_orders, dbAliceSpent]
    norm_num

/-- Appending Alice's Unpaid Dosa order leaves her total spent unchanged. -/
theorem total_spent_spec_witness :
    total_spent
      { dbAliceSpent with orders := dbAliceSpent.orders ++
          [⟨4, "alice", "Dosa", 40, "1:00 PM", "Pending", "Unpaid", "TOK004"⟩] }
      "alice" = total_spent dbAliceSpent "alice" :=
  total_spent_spec.2.1 dbAliceSpent "alice"
    ⟨4, "alice", "Dosa", 40, "1:00 PM", "Pending", "Unpaid", "TOK004"⟩ (by decide)

/-- The store for the worked rating examples: item 3 rated [3, 5] and
item 7 rated [1, 2, 3, 4, 5]. -/
def dbRatings : DB :=
  ⟨[samosa], [],
   [⟨1, 3, "alice", 3, ""⟩, ⟨2, 3, "bob", 5, ""⟩,
    ⟨3, 7, "alice", 1, ""⟩, ⟨4, 7, "bob", 2, ""⟩, ⟨5, 7, "carol", 3, ""⟩,
    ⟨6, 7, "dave", 4, ""⟩, ⟨7, 7, "erin", 5, ""⟩],
   1, 1, 8⟩

/-- C7: averageRating returns the "no rating" sentinel (`none`, not zero)
for an item with no feedback, and otherwise the arithmetic mean of the
item's ratings rounded to two decimal places; ratings [3, 5] give 4.00 and
[1, 2, 3, 4, 5] give 3.00. -/
theorem avg_rating_spec :
    (∀ (db : DB) (item_id : Nat),
      db.feedbacks.filter (fun f => f.item_id = item_id) = [] →
      avg_rating db item_id = none) ∧
    (∀ (db : DB) (item_id : Nat),
      db.feedbacks.filter (fun f => f.item_id = item_id) ≠ [] →
      avg_rating db item_id = some (round2
        ((((db.feedbacks.filter (fun f => f.item_id = item_id)).map
            (fun f => (f.rating : ℚ))).sum) /
          ((db.feedbacks.filter (fun f => f.item_id = item_id)).length : ℚ)))) ∧
    avg_rating dbRatings 3 = some 4 ∧
    avg_rating dbRatings 7 = some 3 ∧
    avg_rating dbRatings 99 = none := by
  refine ⟨?_, ?_, ?_, ?_, ?_⟩
  · intro db item_id h
    simp [avg_rating, h]
  · intro db item_id h
    simp [avg_rating, List.isEmpty_iff, h]
  · norm_num [avg_rating, dbRatings, round2, roundHalfEven]
  · norm_num [avg_rating, dbRatings, round2, roundHalfEven]
  · rfl

/-- An empty store has no rating for item 5; item 3's two ratings are
averaged and rounded. -/
theorem avg_rating_spec_witness :
    avg_rating ⟨[], [], [], 1, 1, 1⟩ 5 = none ∧
    avg_rating dbRatings 3 = some (round2
      ((((dbRatings.feedbacks.filter (fun f => f.item_id = 3)).map
          (fun f => (f.rating : ℚ))).sum) /
        ((dbRatings.feedbacks.filter (fun f => f.item_id = 3)).length : ℚ))) :=
  ⟨avg_rating_spec.1 ⟨[], [], [], 1, 1, 1⟩ 5 rfl,
   avg_rating_spec.2.1 dbRatings 3 (by decide)⟩

/-- C8 counterexample: the admin menu route validates only that name and
price are non-empty and that `float(price)` parses; it never checks the
sign.  Adding item "X" with price "-5" succeeds and persists the item with
price -5, contrary to the claim that a zero or negative price is rejected
with nothing persisted. -/
theorem admin_menu_add_counterexample :
    admin_menu_add (some ⟨"canteen_admin", "admin"⟩) ⟨[], [], [], 1, 1, 1⟩
        "X" "-5" "" "" =
      (.success, ⟨[⟨1, "X", -5, true, none, none⟩], [], [], 2, 1, 1⟩) := by
  simp +decide [admin_menu_add, is_logged_in, is_admin, strip, parsePrice,
    digitsVal, DB.mk.injEq, MenuItem.mk.injEq]

/-- C8 (amended): addItem, as implemented.  Non-admin sessions are
redirected; `InvalidInput` when the stripped name or price text is empty,
or when the price does not parse as a float; any parsable price — positive,
zero or negative — is accepted, and the item is persisted with
available = true. -/
theorem admin_menu_add_spec (s a : Session) (db : DB)
    (name price af at_ : String)
    (hs : s.role ≠ "admin") (ha : a.role = "admin") :
    (admin_menu_add (some s) db name price af at_ = (.redirectLogin, db)) ∧
    (strip name = "" ∨ strip price = "" →
      admin_menu_add (some a) db name price af at_ = (.missingInput, db)) ∧
    (strip name ≠ "" → strip price ≠ "" → parsePrice (strip price) = none →
      admin_menu_add (some a) db name price af at_ = (.invalidPrice, db)) ∧
    (∀ pv : ℚ, strip name ≠ "" → strip price ≠ "" →
      parsePrice (strip price) = some pv →
      admin_menu_add (some a) db name price af at_ =
        (.success,
         { db with
            items := db.items ++
              [{ id := db.next_item_id, name := strip name, price := pv,
                 available := true,
                 available_from := if strip af = "" then none else some (strip af),
                 available_to := if strip at_ = "" then none else some (strip at_) }],
            next_item_id := db.next_item_id + 1 })) := by
  have hta : is_admin (some a) = true := by
    simp [is_admin, ha]
  refine ⟨?_, ?_, ?_, ?_⟩
  · simp [admin_menu_add, is_logged_in, is_admin, hs]
  · intro h
    rcases h with h | h <;> simp [admin_menu_add, is_logged_in, hta, h]
  · intro hn hp hparse
    simp [admin_menu_add, is_logged_in, hta, hn, hp, hparse]
  · intro pv hn hp hparse
    simp [admin_menu_add, is_logged_in, hta, hn, hp, hparse]

/-- The admin adds "Tea" at price "15" with a morning window; a student is
redirected; an empty price and an unparsable price are rejected. -/
theorem admin_menu_add_spec_witness :
    (admin_menu_add (some ⟨"bob", "user"⟩) ⟨[], [], [], 1, 1, 1⟩
        "Tea" "15" "" "" = (.redirectLogin, ⟨[], [], [], 1, 1, 1⟩)) ∧
    (admin_menu_add (some ⟨"canteen_admin", "admin"⟩) ⟨[], [], [], 1, 1, 1⟩
        "Tea" "" "" "" = (.missingInput, ⟨[], [], [], 1, 1, 1⟩)) ∧
    (admin_menu_add (some ⟨"canteen_admin", "admin"⟩) ⟨[], [], [], 1, 1, 1⟩
        "Tea" "abc" "" "" = (.invalidPrice, ⟨[], [], [], 1, 1, 1⟩)) ∧
    (admin_menu_add (some ⟨"canteen_admin", "admin"⟩) ⟨[], [], [], 1, 1, 1⟩
        "Tea" "15" "07:00" "" =
      (.success,
       ⟨[⟨1, "Tea", 15, true, some "07:00", none⟩], [], [], 2, 1, 1⟩)) := by
  refine ⟨?_, ?_, ?_, ?_⟩
  · exact (admin_menu_add_spec ⟨"bob", "user"⟩ ⟨"canteen_admin", "admin"⟩
      ⟨[], [], [], 1, 1, 1⟩ "Tea" "15" "" "" (by decide) rfl).1
  · exact (admin_menu_add_spec ⟨"bob", "user"⟩ ⟨"canteen_admin", "admin"⟩
      ⟨[], [], [], 1, 1, 1⟩ "Tea" "" "" "" (by decide) rfl).2.1 (Or.inr rfl)
  · exact (admin_menu_add_spec ⟨"bob", "user"⟩ ⟨"canteen_admin", "admin"⟩
      ⟨[], [], [], 1, 1, 1⟩ "Tea" "abc" "" "" (by decide) rfl).2.2.1
      (by decide) (by decide) rfl
  · have h := (admin_menu_add_spec ⟨"bob", "user"⟩ ⟨"canteen_admin", "admin"⟩
      ⟨[], [], [], 1, 1, 1⟩ "Tea" "15" "07:00" "" (by decide) rfl).2.2.2 15
      (by decide) (by decide)
      (by simp +decide [parsePrice, strip, digitsVal])
    rw [h]
    rfl

/-- C9: recordPayment imposes no precondition on the order's lifecycle
status or prior payment status: a successful payment by the owner sets
payment_status = Paid whatever the current status is (Cancelled included),
and if the order was not yet Paid its price is then counted by
totalSpent. -/
theorem payment_no_precondition (s : Session) (m : String) (db : DB)
    (pre post : List Order) (o : Order)
    (hadm : s.role ≠ "admin") (hdb : db.orders = pre ++ o :: post)
    (hown : o.username = s.username)
    (hpre : ∀ x ∈ pre, x.id ≠ o.id) (hpost : ∀ x ∈ post, x.id ≠ o.id) :
    payment (some s) db o.id m =
      (.success,
       { db with orders := pre ++ { o with payment_status := "Paid" } :: post }) ∧
    (o.payment_status ≠ "Paid" →
      total_spent
          { db with orders := pre ++ { o with payment_status := "Paid" } :: post }
          s.username =
        total_spent db s.username + o.total_price) := by
  have hia : is_admin (some s) = false := by
    simp [is_admin, hadm]
  have hfind : get_order db o.id = some o := by
    rw [get_order, hdb]
    exact get_order_fresh pre post o o.id hpre rfl
  have hupd : update_order db.orders o.id
      (fun x => { x with payment_status := "Paid" }) =
      pre ++ { o with payment_status := "Paid" } :: post := by
    rw [hdb]
    exact update_order_fresh pre post o o.id _ hpre hpost rfl
  constructor
  · simp [payment, is_logged_in, hia, hfind, hown, hupd]
  · intro hne
    rw [total_spent, total_spent, user_orders, user_orders, hdb]
    simp only [List.filter_append, List.filter_cons, List.map_append,
      List.sum_append]
    simp [hown, hne]
    ring

/-- Bob's Cancelled, Unpaid order: paying it succeeds, marks it Paid and
adds its price to his total spent. -/
theorem payment_no_precondition_witness :
    payment (some ⟨"bob", "user"⟩)
        ⟨[], [⟨1, "bob", "Samosa", 15, "12:30 PM", "Cancelled", "Unpaid", "AAAAAA"⟩],
         [], 1, 2, 1⟩ 1 "Card" =
      (.success,
       ⟨[], [⟨1, "bob", "Samosa", 15, "12:30 PM", "Cancelled", "Paid", "AAAAAA"⟩],
        [], 1, 2, 1⟩) ∧
    total_spent
        ⟨[], [⟨1, "bob", "Samosa", 15, "12:30 PM", "Cancelled", "Paid", "AAAAAA"⟩],
         [], 1, 2, 1⟩ "bob" =
      total_spent
        ⟨[], [⟨1, "bob", "Samosa", 15, "12:30 PM", "Cancelled", "Unpaid", "AAAAAA"⟩],
         [], 1, 2, 1⟩ "bob" + 15 :=
  ⟨(payment_no_precondition ⟨"bob", "user"⟩ "Card"
      ⟨[], [⟨1, "bob", "Samosa", 15, "12:30 PM", "Cancelled", "Unpaid", "AAAAAA"⟩],
       [], 1, 2, 1⟩ []
      [] ⟨1, "bob", "Samosa", 15, "12:30 PM", "Cancelled", "Unpaid", "AAAAAA"⟩
      (by decide) rfl rfl (by simp) (by simp)).1,
   (payment_no_precondition ⟨"bob", "user"⟩ "Card"
      ⟨[], [⟨1, "bob", "Samosa", 15, "12:30 PM", "Cancelled", "Unpaid", "AAAAAA"⟩],
       [], 1, 2, 1⟩ []
      [] ⟨1, "bob", "Samosa", 15, "12:30 PM", "Cancelled", "Unpaid", "AAAAAA"⟩
      (by decide) rfl rfl (by simp) (by simp)).2 (by decide)⟩

/-- C10: submitFeedback never checks that the referenced menu item exists:
for any item id at all — the store's items play no role — a logged-in
student's in-range rating is appended as a feedback record carrying that
item id; there is no NotFound outcome. -/
theorem submit_feedback_spec (s : Session) (db : DB) (item_id : Nat)
    (rating : Int) (comment : String)
    (hadm : s.role ≠ "admin") (hlo : 1 ≤ rating) (hhi : rating ≤ 5) :
    submit_feedback (some s) db item_id rating comment =
      (.success,
       { db with
          feedbacks := db.feedbacks ++
            [{ id := db.next_feedback_id, item_id := item_id,
               username := s.username, rating := rating,
               comment := strip comment }],
          next_feedback_id := db.next_feedback_id + 1 }) := by
  have hia : is_admin (some s) = false := by
    simp [is_admin, hadm]
  have hc : ¬ (rating < 1 ∨ rating > 5) := by
    omega
  simp [submit_feedback, is_logged_in, hia, hc]

/-- Alice rates the nonexistent item 99 in an empty catalog and the
feedback row is still persisted. -/
theorem submit_feedback_spec_witness :
    submit_feedback (some ⟨"alice", "user"⟩) ⟨[], [], [], 1, 1, 1⟩ 99 4 "yum" =
      (.success, ⟨[], [], [⟨1, 99, "alice", 4, "yum"⟩], 1, 1, 2⟩) := by
  have h := submit_feedback_spec ⟨"alice", "user"⟩ ⟨[], [], [], 1, 1, 1⟩ 99 4 "yum"
    (by decide) (by decide) (by decide)
  rw [h]
  rfl

end Canteen
